import Mathlib

/-!
Verification development for the fitbitbot repository: a shallow embedding of
the Fitbit API client (token refresh and request retry logic) and of the
route-level normalization and aggregation code (sleep parsing, baseline
percentages, day-count clamping, history sorting), together with theorems
settling the specified properties.

JavaScript numbers are modelled as rationals; a value that may be null or
undefined is an Option.  JavaScript truthiness on numbers (0 is falsy) and on
strings (the empty string is falsy) is modelled explicitly.
-/

namespace Fitbitbot

/-- Math.round: rounds half toward positive infinity. -/
def jsRound (x : ℚ) : ℤ := (x + 1/2).floor

/-- Truthiness of a nullable number: null/undefined and 0 are falsy. -/
def jsTruthyQ (v : Option ℚ) : Bool :=
  match v with
  | some x => decide (x ≠ 0)
  | none => false

/-- Truthiness of a nullable string: null/undefined and the empty string are falsy. -/
def jsTruthyS (v : Option String) : Bool :=
  match v with
  | some s => decide (s ≠ "")
  | none => false

/-- Truthiness of a nullable boolean. -/
def jsTruthyB (v : Option Bool) : Bool := v.getD false

/-- The expression v || null on a nullable number. -/
def jsOrQ (v : Option ℚ) : Option ℚ := if jsTruthyQ v then v else none

/-- The expression v || 0 on a nullable number. -/
def jsOrZero (v : Option ℚ) : ℚ := v.getD 0

/-- The expression v || null on a nullable string. -/
def jsOrS (v : Option String) : Option String := if jsTruthyS v then v else none

/-- The expression v || "" on a nullable string. -/
def jsOrEmpty (v : Option String) : String := if jsTruthyS v then v.getD "" else ""

/-- Keep the truthy (non-null, non-zero) values of a window of nullable samples:
models window.filter(e => e.value).map(e => e.value!). -/
def truthyVals (window : List (Option ℚ)) : List ℚ :=
  window.filterMap jsOrQ

/-- Arithmetic mean of a list of rationals (0 on the empty list, which the code
never evaluates because every use is guarded by a length check). -/
def winAvg (vals : List ℚ) : ℚ := vals.sum / vals.length

/-!  Sleep normalization (packages/api/src/routes/sleep.ts, parseSleepRecord). -/

/-- Raw per-stage minutes read from entry.levels.summary; each field models
summary.stage?.minutes ?? null. -/
structure RawStages where
  deep : Option ℚ := none
  light : Option ℚ := none
  rem : Option ℚ := none
  wake : Option ℚ := none
deriving Repr, DecidableEq

/-- A raw sleep entry as consumed by parseSleepRecord; absent JSON fields are none,
and summary models entry.levels?.summary. -/
structure RawSleepEntry where
  dateOfSleep : Option String := none
  startTime : Option String := none
  endTime : Option String := none
  minutesAsleep : Option ℚ := none
  minutesAwake : Option ℚ := none
  timeInBed : Option ℚ := none
  efficiency : Option ℚ := none
  isMainSleep : Option Bool := none
  summary : Option RawStages := none
deriving Repr, DecidableEq

/-- Normalized sleep stages sub-record. -/
structure SleepStages where
  deep : Option ℚ
  deep_percent : Option ℚ
  light : Option ℚ
  light_percent : Option ℚ
  rem : Option ℚ
  rem_percent : Option ℚ
  wake : Option ℚ
deriving Repr, DecidableEq

/-- Normalized sleep record. -/
structure SleepRecord where
  date : String
  start_time : Option String
  end_time : Option String
  duration_hours : Option ℚ
  time_in_bed_minutes : Option ℚ
  minutes_asleep : Option ℚ
  minutes_awake : Option ℚ
  efficiency : Option ℚ
  stages : Option SleepStages
  is_main_sleep : Bool
deriving Repr, DecidableEq

/-- One stage percentage: m && total ? Math.round((m / total) * 1000) / 10 : null. -/
def stagePercent (m : Option ℚ) (total : ℚ) : Option ℚ :=
  match m with
  | some x => if x ≠ 0 ∧ total ≠ 0 then some ((jsRound (x / total * 1000) : ℚ) / 10) else none
  | none => none

/-- parseSleepRecord from packages/api/src/routes/sleep.ts. -/
def parseSleepRecord (e : RawSleepEntry) : SleepRecord :=
  let stages : Option SleepStages :=
    match e.summary with
    | none => none
    | some s =>
      let totalSleep := jsOrZero s.deep + jsOrZero s.light + jsOrZero s.rem
      some
        { deep := s.deep
          deep_percent := stagePercent s.deep totalSleep
          light := s.light
          light_percent := stagePercent s.light totalSleep
          rem := s.rem
          rem_percent := stagePercent s.rem totalSleep
          wake := s.wake }
  let minutesAsleep := jsOrZero e.minutesAsleep
  let durationHours : Option ℚ :=
    if minutesAsleep ≠ 0 then some ((jsRound (minutesAsleep / 60 * 100) : ℚ) / 100) else none
  { date := jsOrEmpty e.dateOfSleep
    start_time := jsOrS e.startTime
    end_time := jsOrS e.endTime
    duration_hours := durationHours
    time_in_bed_minutes := jsOrQ e.timeInBed
    minutes_asleep := jsOrQ e.minutesAsleep
    minutes_awake := jsOrQ e.minutesAwake
    efficiency := jsOrQ e.efficiency
    stages := stages
    is_main_sleep := e.isMainSleep.getD true }

/-!  Baseline deviation (packages/api/src/routes/summary.ts, hrv_vs_baseline_pct
and vsBaselinePercent).  The window is the list of raw dailyRmssd samples; the
code filters it by truthiness, requires a non-empty filtered window and a truthy
current value, and computes Math.round(((current - avg) / avg) * 1000) / 10. -/

/-- Percent deviation of a current sample from the average of a trailing window,
exactly as computed at both baseline sites in summary.ts. -/
def vsBaselinePercent (current : Option ℚ) (window : List (Option ℚ)) : Option ℚ :=
  let vals := truthyVals window
  if vals.length ≠ 0 ∧ jsTruthyQ current then
    let avg := winAvg vals
    some ((jsRound ((current.getD 0 - avg) / avg * 1000) : ℚ) / 10)
  else none

/-!  Day-count clamping: Math.min(Math.max(parseInt(q) || default, 1), max).
A non-numeric query parameter makes parseInt return NaN (modelled as none);
NaN and 0 are falsy, so both fall back to the default. -/

/-- The clamp expression shared by every history endpoint. -/
def clampDays (defaultDays maxDays : ℤ) (q : Option ℤ) : ℤ :=
  let n : ℤ :=
    match q with
    | none => defaultDays
    | some v => if v = 0 then defaultDays else v
  min (max n 1) maxDays

/-- GET /sleep/history days clamp. -/
def sleepHistoryDays : Option ℤ → ℤ := clampDays 30 90

/-- GET /sleep/stages-history days clamp. -/
def stagesHistoryDays : Option ℤ → ℤ := clampDays 14 30

/-- GET /recovery/history days clamp. -/
def recoveryHistoryDays : Option ℤ → ℤ := clampDays 30 90

/-- GET /heart-rate/resting/history days clamp. -/
def heartRateHistoryDays : Option ℤ → ℤ := clampDays 30 90

/-- GET /activity/history days clamp. -/
def activityHistoryDays : Option ℤ → ℤ := clampDays 14 90

/-!  FitbitClient credential and request state machine (fitbit-client.ts).
The network is modelled as an oracle: each call to fetch consumes a prescribed
outcome (a transport failure, a timeout, or a status/body response).  The
token endpoint is a separate oracle carrying the parsed token body for the
2xx case. -/

/-- The access/refresh token pair returned by the token endpoint. -/
structure TokenData where
  access_token : String
  refresh_token : String
deriving Repr, DecidableEq

/-- In-memory state of the FitbitClient singleton. -/
structure ClientState where
  accessToken : Option String
  refreshToken : Option String
  clientId : Option String
  clientSecret : Option String
deriving Repr, DecidableEq

/-- Errors thrown by the client: FitbitAPIError carries a status code and a
message; FitbitRateLimitError is its 429 subclass. -/
inductive FitbitError where
  | api (statusCode : ℕ) (message : String)
  | rateLimit (message : String)
deriving Repr, DecidableEq

/-- Outcome of one fetch call against the provider API. -/
inductive NetResult where
  | timeout
  | netError (msg : String)
  | resp (status : ℕ) (body : String)
deriving Repr, DecidableEq

/-- Outcome of one fetch call against the token endpoint: a thrown transport
error, or a response whose body parses as TokenData when 2xx. -/
inductive RefreshNet where
  | err
  | resp (status : ℕ) (tok : TokenData)
deriving Repr, DecidableEq

/-- Response.ok: status in the inclusive range 200-299. -/
def respOk (status : ℕ) : Bool := decide (200 ≤ status ∧ status ≤ 299)

/-- Result of refreshAccessToken: whether it returned true, the client state
afterwards, and how many calls reached the token endpoint. -/
structure RefreshOutcome where
  success : Bool
  state : ClientState
  tokenCalls : ℕ
deriving Repr, DecidableEq

/-- FitbitClient.refreshAccessToken.  Fails fast, with no network call, when
refresh token, client id or client secret is missing (or empty, hence falsy);
otherwise performs the exchange and replaces both stored tokens exactly when
the response is 2xx (saveToken). -/
def refreshAccessToken (st : ClientState) (net : RefreshNet) : RefreshOutcome :=
  if jsTruthyS st.refreshToken ∧ jsTruthyS st.clientId ∧ jsTruthyS st.clientSecret then
    match net with
    | .err => ⟨false, st, 1⟩
    | .resp status tok =>
      if respOk status then
        ⟨true,
          { st with
              accessToken := some tok.access_token
              refreshToken := some tok.refresh_token }, 1⟩
      else ⟨false, st, 1⟩
  else ⟨false, st, 0⟩

/-- Result of FitbitClient.request: the thrown error or returned body, the
number of fetch calls made to the API endpoint, the number of invocations of
refreshAccessToken, and the final client state. -/
structure RequestOutcome where
  result : Except FitbitError String
  httpCalls : ℕ
  refreshAttempts : ℕ
  state : ClientState
deriving Repr

/-- Post-401 status handling shared by the first and the retried response:
429 throws the rate-limit error, any other non-2xx throws FitbitAPIError with
the body truncated to 200 characters, and 2xx returns the body. -/
def classifyResponse (status : ℕ) (body : String) : Except FitbitError String :=
  if status = 429 then
    .error (.rateLimit "Fitbit API rate limit exceeded (150 requests/hour). Try again later.")
  else if ¬ respOk status then .error (.api status (body.take 200))
  else .ok body

/-- Error produced when a fetch call itself fails (timeout maps to 504,
any other transport failure to 503). -/
def transportError (n : NetResult) (msg : String) : FitbitError :=
  match n with
  | .timeout => .api 504 "Request timed out after 30 seconds"
  | _ => .api 503 ("Request failed: " ++ msg)

/-- FitbitClient.request.  net1 is the network outcome of the first fetch,
rnet the token-endpoint outcome should a refresh be attempted, and net2 the
outcome of the retried fetch should one be issued. -/
def request (st : ClientState) (net1 : NetResult) (rnet : RefreshNet)
    (net2 : NetResult) : RequestOutcome :=
  if ¬ jsTruthyS st.accessToken then
    ⟨.error (.api 401 "No access token available. Run authentication first."), 0, 0, st⟩
  else
    match net1 with
    | .timeout => ⟨.error (transportError .timeout ""), 1, 0, st⟩
    | .netError m => ⟨.error (transportError (.netError m) m), 1, 0, st⟩
    | .resp status body =>
      if status = 401 then
        let r := refreshAccessToken st rnet
        if r.success then
          match net2 with
          | .timeout => ⟨.error (transportError .timeout ""), 2, 1, r.state⟩
          | .netError m => ⟨.error (transportError (.netError m) m), 2, 1, r.state⟩
          | .resp s2 b2 => ⟨classifyResponse s2 b2, 2, 1, r.state⟩
        else
          ⟨.error (.api 401 "Token expired and refresh failed. Re-authenticate."), 1, 1, r.state⟩
      else ⟨classifyResponse status body, 1, 0, st⟩

/-!  Endpoint record pipelines and their sort order.  Every history endpoint
sorts its records with the comparator (a, b) => b.date.localeCompare(a.date)
(descending); the stages-history chart endpoint sorts ascending.  The in-place
Array.prototype.sort is modelled by insertion sort over the corresponding
total order on the date strings. -/

/-- localeCompare order on date strings: lexicographic on the character lists. -/
def dateLe (a b : String) : Prop := a.data ≤ b.data

/-- Strict localeCompare order on date strings. -/
def dateLt (a b : String) : Prop := a.data < b.data

instance : DecidableRel dateLe := fun a b =>
  inferInstanceAs (Decidable (a.data ≤ b.data))

instance : DecidableRel dateLt := fun a b =>
  inferInstanceAs (Decidable (a.data < b.data))

/-- records.sort((a, b) => b.date.localeCompare(a.date)): descending by date. -/
def sortByDateDesc {α : Type} (f : α → String) (l : List α) : List α :=
  List.insertionSort (fun a b => dateLe (f b) (f a)) l

/-- records.sort((a, b) => a.date.localeCompare(b.date)): ascending by date. -/
def sortByDateAsc {α : Type} (f : α → String) (l : List α) : List α :=
  List.insertionSort (fun a b => dateLe (f a) (f b)) l

/-- A dated scalar record as produced by the resting heart-rate history route. -/
structure DatedValue where
  date : String
  value : Option ℚ
deriving Repr, DecidableEq

/-- One raw activities-heart entry: dateTime plus value.restingHeartRate. -/
structure RhrEntry where
  dateTime : String
  restingHeartRate : Option ℚ := none
deriving Repr, DecidableEq

/-- One raw hrv entry: dateTime plus value.dailyRmssd / value.deepRmssd. -/
structure HrvEntry where
  dateTime : String
  dailyRmssd : Option ℚ := none
  deepRmssd : Option ℚ := none
deriving Repr, DecidableEq

/-- Normalized HRV history record from GET /recovery/history. -/
structure HrvRecord where
  date : String
  daily_rmssd : Option ℚ
  deep_rmssd : Option ℚ
deriving Repr, DecidableEq

/-- One raw activities-steps entry; value is parseInt of the raw string
(none models NaN). -/
structure StepsEntry where
  dateTime : String
  value : Option ℤ := none
deriving Repr, DecidableEq

/-- Normalized steps record: parseInt(entry.value) || 0. -/
structure StepsRecord where
  date : String
  steps : ℤ
deriving Repr, DecidableEq

/-- Flat per-night stages record from GET /sleep/stages-history. -/
structure StageChartRecord where
  date : String
  deep : ℚ
  light : ℚ
  rem : ℚ
  wake : ℚ
  total_sleep : ℚ
  efficiency : Option ℚ
deriving Repr, DecidableEq

/-- GET /sleep/history records: keep main-sleep entries, parse, sort descending. -/
def sleepHistoryRecords (raw : List RawSleepEntry) : List SleepRecord :=
  sortByDateDesc (fun r => r.date)
    ((raw.filter (fun e => jsTruthyB e.isMainSleep)).map parseSleepRecord)

/-- GET /heart-rate/resting/history records: normalize (rhr || null), sort descending. -/
def restingHistoryRecords (entries : List RhrEntry) : List DatedValue :=
  sortByDateDesc (fun r => r.date)
    (entries.map (fun e => ⟨e.dateTime, jsOrQ e.restingHeartRate⟩))

/-- GET /recovery/history hrv records: normalize, sort descending. -/
def hrvHistoryRecords (entries : List HrvEntry) : List HrvRecord :=
  sortByDateDesc (fun r => r.date)
    (entries.map (fun e => ⟨e.dateTime, jsOrQ e.dailyRmssd, jsOrQ e.deepRmssd⟩))

/-- GET /activity/history records: parseInt(value) || 0, sort descending. -/
def stepsHistoryRecords (entries : List StepsEntry) : List StepsRecord :=
  sortByDateDesc (fun r => r.date)
    (entries.map (fun e =>
      ⟨e.dateTime, match e.value with
        | none => 0
        | some v => v⟩))

/-- GET /sleep/stages-history records: keep main-sleep entries, flatten stage
minutes with || 0, sort ascending for chart display. -/
def stagesHistoryRecords (raw : List RawSleepEntry) : List StageChartRecord :=
  sortByDateAsc (fun r => r.date)
    ((raw.filter (fun e => jsTruthyB e.isMainSleep)).map (fun r =>
      let s := r.summary.getD {}
      { date := jsOrEmpty r.dateOfSleep
        deep := jsOrZero s.deep
        light := jsOrZero s.light
        rem := jsOrZero s.rem
        wake := jsOrZero s.wake
        total_sleep := jsOrZero r.minutesAsleep
        efficiency := jsOrQ r.efficiency }))

/-- Minimum of a non-empty list, as Math.min(...values); none on the empty list. -/
def listMin (l : List ℚ) : Option ℚ :=
  match l with
  | [] => none
  | x :: xs => some (xs.foldl min x)

/-- Maximum of a non-empty list, as Math.max(...values); none on the empty list. -/
def listMax (l : List ℚ) : Option ℚ :=
  match l with
  | [] => none
  | x :: xs => some (xs.foldl max x)

/-- Full observable output of GET /heart-rate/resting/history: records plus
window statistics (average rounded to one decimal, min, max), all null on an
empty sample set. -/
structure RhrHistoryOut where
  records : List DatedValue
  average : Option ℚ
  min_value : Option ℚ
  max_value : Option ℚ
deriving Repr, DecidableEq

/-- GET /heart-rate/resting/history: records from all entries, while the
values list (feeding average/min/max) keeps only truthy resting heart rates. -/
def restingHistoryOutput (entries : List RhrEntry) : RhrHistoryOut :=
  let values := truthyVals (entries.map (fun e => e.restingHeartRate))
  { records := restingHistoryRecords entries
    average :=
      if values.length ≠ 0 then some ((jsRound (winAvg values * 10) : ℚ) / 10) else none
    min_value := listMin values
    max_value := listMax values }

/-- Full observable output of GET /recovery/history. -/
structure RecoveryHistoryOut where
  hrv_records : List HrvRecord
  hrv_rmssd_average : Option ℚ
deriving Repr, DecidableEq

/-- GET /recovery/history: sorted records, then the average over the truthy
daily_rmssd values of the sorted records. -/
def recoveryHistoryOutput (entries : List HrvEntry) : RecoveryHistoryOut :=
  let records := hrvHistoryRecords entries
  let values := truthyVals (records.map (fun r => r.daily_rmssd))
  { hrv_records := records
    hrv_rmssd_average :=
      if values.length ≠ 0 then some ((jsRound (winAvg values * 10) : ℚ) / 10) else none }

/-!  GET /summary/morning-report (packages/api/src/routes/summary.ts).
Each metric-family fetch is wrapped in try/catch; a thrown error is modelled
as Except.error and leaves the corresponding sub-section null.  Dates are
passed in as the strings the route computes from the clock. -/

/-- activityRaw.summary fields used by the morning report. -/
structure ActivitySummaryRaw where
  steps : Option ℚ := none
  caloriesOut : Option ℚ := none
  fairlyActiveMinutes : Option ℚ := none
  veryActiveMinutes : Option ℚ := none
deriving Repr, DecidableEq

/-- The value object of the first activities-active-zone-minutes entry. -/
structure AzmRaw where
  activeZoneMinutes : Option ℚ := none
  fatBurnActiveZoneMinutes : Option ℚ := none
  cardioActiveZoneMinutes : Option ℚ := none
  peakActiveZoneMinutes : Option ℚ := none
deriving Repr, DecidableEq

/-- Normalized active-zone-minutes sub-record. -/
structure AzmReport where
  total : Option ℚ
  fat_burn : Option ℚ
  cardio : Option ℚ
  peak : Option ℚ
deriving Repr, DecidableEq

/-- yesterday_activity sub-section of the morning report. -/
structure ActivityReport where
  date : String
  steps : Option ℚ
  calories_out : Option ℚ
  fairly_active_minutes : Option ℚ
  very_active_minutes : Option ℚ
  active_zone_minutes : Option AzmReport
deriving Repr, DecidableEq

/-- recovery.hrv sub-section of the morning report. -/
structure HrvReport where
  date : String
  daily_rmssd : Option ℚ
  deep_rmssd : Option ℚ
  vs_baseline_percent : Option ℚ
deriving Repr, DecidableEq

/-- sleep_comparison sub-section of the morning report. -/
structure SleepComparison where
  vs_7day_avg_duration_hours : ℚ
  vs_7day_avg_efficiency : Option ℚ
  duration_diff_hours : Option ℚ
  efficiency_diff : Option ℚ
deriving Repr, DecidableEq

/-- trends sub-section of the morning report. -/
structure Trends where
  days_of_data : ℕ
  sleep_avg_duration_hours : Option ℚ
  hrv_avg : Option ℚ
deriving Repr, DecidableEq

/-- The assembled morning report (sections relevant to the core). -/
structure MorningReport where
  last_night_sleep : Option SleepRecord
  sleep_comparison : Option SleepComparison
  yesterday_activity : Option ActivityReport
  recovery_hrv : Option HrvReport
  resting_heart_rate : Option ℚ
  trends : Option Trends
deriving Repr, DecidableEq

/-- The independent fetch results feeding the morning report; an error models
a throw inside the corresponding try block. -/
structure MorningInputs where
  sleepHistoryFetch : Except Unit (List RawSleepEntry)
  hrvHistoryFetch : Except Unit (List HrvEntry)
  sleepTodayFetch : Except Unit (List RawSleepEntry)
  activityFetch : Except Unit ActivitySummaryRaw
  azmFetch : Except Unit AzmRaw
  hrvTodayFetch : Except Unit (List HrvEntry)
  heartRateFetch : Except Unit (List RhrEntry)

/-- Last night's sleep: the first main-sleep entry of today's sleep payload. -/
def lastNightSleepOf (fetch : Except Unit (List RawSleepEntry)) : Option SleepRecord :=
  match fetch with
  | .error _ => none
  | .ok arr => (arr.find? (fun e => jsTruthyB e.isMainSleep)).map parseSleepRecord

/-- The history entries admitted into the sleep comparison window: main-sleep
entries whose raw dateOfSleep differs from the current record's date. -/
def sleepComparisonWindow (cur : SleepRecord) (hist : List RawSleepEntry) :
    List RawSleepEntry :=
  hist.filter (fun s => jsTruthyB s.isMainSleep ∧ s.dateOfSleep ≠ some cur.date)

/-- sleep_comparison: null without a current record, a cached history, or a
non-empty comparison window; otherwise averages over the window. -/
def sleepComparisonOf (lastNight : Option SleepRecord)
    (cached : Except Unit (List RawSleepEntry)) : Option SleepComparison :=
  match lastNight, cached with
  | some cur, .ok hist =>
    let historyRecords := (sleepComparisonWindow cur hist).map parseSleepRecord
    if historyRecords.length ≠ 0 then
      let durations := truthyVals (historyRecords.map (fun r => r.duration_hours))
      let avgDuration := winAvg durations
      let efficiencies := truthyVals (historyRecords.map (fun r => r.efficiency))
      let avgEfficiency := if efficiencies.length ≠ 0 then winAvg efficiencies else 0
      some
        { vs_7day_avg_duration_hours := (jsRound (avgDuration * 100) : ℚ) / 100
          vs_7day_avg_efficiency :=
            if avgEfficiency ≠ 0 then some ((jsRound (avgEfficiency * 10) : ℚ) / 10) else none
          duration_diff_hours :=
            if jsTruthyQ cur.duration_hours then
              some ((jsRound ((cur.duration_hours.getD 0 - avgDuration) * 100) : ℚ) / 100)
            else none
          efficiency_diff :=
            if jsTruthyQ cur.efficiency ∧ avgEfficiency ≠ 0 then
              some ((jsRound ((cur.efficiency.getD 0 - avgEfficiency) * 10) : ℚ) / 10)
            else none }
    else none
  | _, _ => none

/-- yesterday_activity: null when the activity fetch throws; the nested AZM
fetch failing only leaves active_zone_minutes null. -/
def yesterdayActivityOf (yesterday : String) (fetch : Except Unit ActivitySummaryRaw)
    (azm : Except Unit AzmRaw) : Option ActivityReport :=
  match fetch with
  | .error _ => none
  | .ok s =>
    some
      { date := yesterday
        steps := jsOrQ s.steps
        calories_out := jsOrQ s.caloriesOut
        fairly_active_minutes := jsOrQ s.fairlyActiveMinutes
        very_active_minutes := jsOrQ s.veryActiveMinutes
        active_zone_minutes :=
          match azm with
          | .error _ => none
          | .ok a =>
            some
              { total := jsOrQ a.activeZoneMinutes
                fat_burn := jsOrQ a.fatBurnActiveZoneMinutes
                cardio := jsOrQ a.cardioActiveZoneMinutes
                peak := jsOrQ a.peakActiveZoneMinutes } }

/-- recovery.hrv: null when today's HRV fetch throws or yields no entry;
the baseline percentage additionally needs the cached history window. -/
def hrvReportOf (today : String) (fetch : Except Unit (List HrvEntry))
    (cachedHrv : Except Unit (List HrvEntry)) : Option HrvReport :=
  match fetch with
  | .error _ => none
  | .ok arr =>
    match arr.head? with
    | none => none
    | some entry =>
      let vsBaseline :=
        match cachedHrv with
        | .error _ => none
        | .ok hist => vsBaselinePercent entry.dailyRmssd (hist.map (fun e => e.dailyRmssd))
      some
        { date := if entry.dateTime = "" then today else entry.dateTime
          daily_rmssd := jsOrQ entry.dailyRmssd
          deep_rmssd := jsOrQ entry.deepRmssd
          vs_baseline_percent := vsBaseline }

/-- resting_heart_rate: restingHeartRate of the first activities-heart entry,
with || null, or null when the fetch throws. -/
def restingHeartRateOf (fetch : Except Unit (List RhrEntry)) : Option ℚ :=
  match fetch with
  | .error _ => none
  | .ok arr =>
    match arr.head? with
    | none => none
    | some e => jsOrQ e.restingHeartRate

/-- trends: rolling averages over whichever cached histories are available. -/
def trendsOf (cachedSleep : Except Unit (List RawSleepEntry))
    (cachedHrv : Except Unit (List HrvEntry)) : Option Trends :=
  let sleepDurations :=
    match cachedSleep with
    | .error _ => []
    | .ok hist =>
      (hist.filter (fun e => jsTruthyB e.isMainSleep ∧ jsTruthyQ e.minutesAsleep)).map
        (fun e => jsOrZero e.minutesAsleep / 60)
  let hrvValues :=
    match cachedHrv with
    | .error _ => []
    | .ok hist => truthyVals (hist.map (fun e => e.dailyRmssd))
  some
    { days_of_data := max (max sleepDurations.length hrvValues.length) 1
      sleep_avg_duration_hours :=
        if sleepDurations.length ≠ 0 then
          some ((jsRound (winAvg sleepDurations * 100) : ℚ) / 100)
        else none
      hrv_avg :=
        if hrvValues.length ≠ 0 then some ((jsRound (winAvg hrvValues * 10) : ℚ) / 10)
        else none }

/-- The morning report assembled from the independent family fetches. -/
def morningReport (today yesterday : String) (inp : MorningInputs) : MorningReport :=
  let lastNight := lastNightSleepOf inp.sleepTodayFetch
  { last_night_sleep := lastNight
    sleep_comparison := sleepComparisonOf lastNight inp.sleepHistoryFetch
    yesterday_activity := yesterdayActivityOf yesterday inp.activityFetch inp.azmFetch
    recovery_hrv := hrvReportOf today inp.hrvTodayFetch inp.hrvHistoryFetch
    resting_heart_rate := restingHeartRateOf inp.heartRateFetch
    trends := trendsOf inp.sleepHistoryFetch inp.hrvHistoryFetch }

/-!  Calendar window of the HRV baseline at day granularity.  The route
computes weekAgo = formatDate(daysAgo(7)) and yesterday = formatDate(daysAgo(1))
and requests getHrvRange(weekAgo, yesterday), while the compared value is
fetched for formatDate(now).  formatDate composed with daysAgo is, at day
granularity, subtraction on day numbers. -/

/-- daysAgo(n) at day granularity: the day number n days before today. -/
def daysAgoDay (todayDay : ℤ) (n : ℕ) : ℤ := todayDay - n

/-- Lower bound of the HRV baseline window (weekAgo). -/
def hrvWindowStart (todayDay : ℤ) : ℤ := daysAgoDay todayDay 7

/-- Upper bound of the HRV baseline window (yesterday). -/
def hrvWindowEnd (todayDay : ℤ) : ℤ := daysAgoDay todayDay 1

/-!  Concrete sample data used to instantiate the theorems below. -/

/-- The sleep entry of the specified scenario: 450 minutes asleep, stages
90/270/90 plus 30 minutes awake. -/
def sampleSleepEntry : RawSleepEntry :=
  { minutesAsleep := some 450
    summary := some { deep := some 90, light := some 270, rem := some 90, wake := some 30 } }

/-- A current sleep record dated 2025-01-10. -/
def sampleCur : SleepRecord :=
  { date := "2025-01-10"
    start_time := none
    end_time := none
    duration_hours := none
    time_in_bed_minutes := none
    minutes_asleep := none
    minutes_awake := none
    efficiency := none
    stages := none
    is_main_sleep := true }

/-- A main-sleep history entry dated the day before sampleCur. -/
def sampleHistEntry : RawSleepEntry :=
  { dateOfSleep := some "2025-01-09", isMainSleep := some true }

/-!  Helper lemmas. -/

/-- Math.round agrees with the floor of the argument plus one half. -/
theorem jsRound_eq_floor (x : ℚ) : jsRound x = ⌊x + 1/2⌋ :=
  (Rat.floor_def' _).trans Rat.floor_def.symm

/-- Evaluation rule for Math.round at a concrete argument. -/
theorem jsRound_eq_of (x : ℚ) (n : ℤ) (h1 : (n : ℚ) ≤ x + 1/2) (h2 : x + 1/2 < n + 1) :
    jsRound x = n := by
  rw [jsRound_eq_floor]
  exact Int.floor_eq_iff.mpr ⟨h1, by exact_mod_cast h2⟩

/-- Math.round is within one half of its argument. -/
theorem jsRound_sub_le (x : ℚ) : |(jsRound x : ℚ) - x| ≤ 1/2 := by
  rw [jsRound_eq_floor]
  have h1 : ((⌊x + 1/2⌋ : ℤ) : ℚ) ≤ x + 1/2 := Int.floor_le (x + 1/2)
  have h2 : x + 1/2 < ((⌊x + 1/2⌋ : ℤ) : ℚ) + 1 := Int.lt_floor_add_one (x + 1/2)
  rw [abs_le]
  constructor <;> linarith

/-- Two strings with the same character data are equal. -/
theorem string_data_inj {s t : String} (h : s.data = t.data) : s = t := by
  cases s
  cases t
  exact congrArg String.mk h

/-- The descending sort really is sorted: adjacent dates are non-increasing. -/
theorem sorted_sortByDateDesc {α : Type} (f : α → String) (l : List α) :
    (sortByDateDesc f l).Pairwise (fun a b => dateLe (f b) (f a)) := by
  haveI : IsTotal α (fun a b => dateLe (f b) (f a)) :=
    ⟨fun a b => le_total (f b).data (f a).data⟩
  haveI : IsTrans α (fun a b => dateLe (f b) (f a)) :=
    ⟨fun _ _ _ h1 h2 => le_trans h2 h1⟩
  exact List.sorted_insertionSort _ l

/-- The ascending sort really is sorted: adjacent dates are non-decreasing. -/
theorem sorted_sortByDateAsc {α : Type} (f : α → String) (l : List α) :
    (sortByDateAsc f l).Pairwise (fun a b => dateLe (f a) (f b)) := by
  haveI : IsTotal α (fun a b => dateLe (f a) (f b)) :=
    ⟨fun a b => le_total (f a).data (f b).data⟩
  haveI : IsTrans α (fun a b => dateLe (f a) (f b)) :=
    ⟨fun _ _ _ h1 h2 => le_trans h1 h2⟩
  exact List.sorted_insertionSort _ l

/-- With pairwise-distinct dates, the descending sort is strictly descending. -/
theorem strict_sortByDateDesc {α : Type} (f : α → String) (l : List α)
    (h : (sortByDateDesc f l).Pairwise (fun a b => f a ≠ f b)) :
    (sortByDateDesc f l).Pairwise (fun a b => dateLt (f b) (f a)) :=
  ((sorted_sortByDateDesc f l).and h).imp
    (fun hab => lt_of_le_of_ne hab.1 (fun he => hab.2 (string_data_inj he.symm)))

/-- With pairwise-distinct dates, the ascending sort is strictly ascending. -/
theorem strict_sortByDateAsc {α : Type} (f : α → String) (l : List α)
    (h : (sortByDateAsc f l).Pairwise (fun a b => f a ≠ f b)) :
    (sortByDateAsc f l).Pairwise (fun a b => dateLt (f a) (f b)) :=
  ((sorted_sortByDateAsc f l).and h).imp
    (fun hab => lt_of_le_of_ne hab.1 (fun he => hab.2 (string_data_inj he)))

/-- Every value admitted into a window statistic by the truthiness filter is
non-zero; with non-negative raw samples it is positive. -/
theorem truthyVals_pos (window : List (Option ℚ))
    (hnn : ∀ o ∈ window, 0 ≤ o.getD 0) :
    ∀ x ∈ truthyVals window, 0 < x := by
  intro x hx
  rcases List.mem_filterMap.mp hx with ⟨o, ho, hox⟩
  unfold jsOrQ at hox
  by_cases ht : jsTruthyQ o
  · rw [if_pos ht] at hox
    subst hox
    have hne : x ≠ 0 := by
      unfold jsTruthyQ at ht
      simpa using ht
    have h0 : (0 : ℚ) ≤ x := by simpa using hnn (some x) ho
    exact lt_of_le_of_ne h0 (Ne.symm hne)
  · rw [if_neg ht] at hox
    exact absurd hox (by simp)

/-- A non-empty truthiness-filtered window of non-negative samples has a
strictly positive average. -/
theorem winAvg_truthyVals_pos (window : List (Option ℚ))
    (hnn : ∀ o ∈ window, 0 ≤ o.getD 0) (hne : truthyVals window ≠ []) :
    0 < winAvg (truthyVals window) := by
  have hsum : 0 < (truthyVals window).sum :=
    List.sum_pos _ (truthyVals_pos window hnn) hne
  have hlen : 0 < ((truthyVals window).length : ℚ) := by
    have : 0 < (truthyVals window).length := List.length_pos.mpr hne
    exact_mod_cast this
  exact div_pos hsum hlen

/-- Behavior of the shared day-count clamp for any in-range default. -/
theorem clampDays_spec (d m : ℤ) (h1 : 1 ≤ d) (h2 : d ≤ m) (q : Option ℤ) :
    1 ≤ clampDays d m q ∧ clampDays d m q ≤ m ∧
    (q = none → clampDays d m q = d) ∧
    (∀ v, q = some v → m < v → clampDays d m q = m) ∧
    (∀ v, q = some v → v < 1 → v ≠ 0 → clampDays d m q = 1) ∧
    (q = some 0 → clampDays d m q = d) := by
  rcases q with - | v
  · have hcl : clampDays d m none = min (max d 1) m := rfl
    refine ⟨?_, ?_, ?_, ?_, ?_, ?_⟩
    · rw [hcl]; omega
    · rw [hcl]; omega
    · intro _; rw [hcl]; omega
    · intro x hx; exact Option.noConfusion hx
    · intro x hx; exact Option.noConfusion hx
    · intro h; exact Option.noConfusion h
  · have hcl : clampDays d m (some v) = min (max (if v = 0 then d else v) 1) m := rfl
    refine ⟨?_, ?_, ?_, ?_, ?_, ?_⟩
    · rw [hcl]; split_ifs <;> omega
    · rw [hcl]; split_ifs <;> omega
    · intro h; exact Option.noConfusion h
    · intro x hx hlt
      obtain rfl : v = x := Option.some.inj hx
      rw [hcl]; split_ifs <;> omega
    · intro x hx hlt hne
      obtain rfl : v = x := Option.some.inj hx
      rw [hcl]; split_ifs <;> omega
    · intro h
      obtain rfl : v = 0 := Option.some.inj h
      rw [hcl]; split_ifs <;> omega

/-!  Claim theorems. -/

/-- C4 (counterexample): on GET /sleep/history an out-of-range numeric days
value of 200 yields an effective day count of 90 (the range maximum), not the
documented default of 30 as the claim states. -/
theorem days_clamp_counterexample :
    sleepHistoryDays (some 200) = 90 ∧ (90 : ℤ) ≠ 30 := by decide

/-- C4 (amended): for every days input, each history endpoint's effective day
count lies within its documented inclusive range, a non-numeric input falls
back to the documented per-endpoint default, and an out-of-range numeric input
is clamped to the nearest range bound (a numeric 0, being falsy, also falls
back to the default) rather than erroring. -/
theorem days_clamp_amended (q : Option ℤ) :
    (1 ≤ sleepHistoryDays q ∧ sleepHistoryDays q ≤ 90 ∧
      (q = none → sleepHistoryDays q = 30) ∧
      (∀ v, q = some v → 90 < v → sleepHistoryDays q = 90) ∧
      (∀ v, q = some v → v < 1 → v ≠ 0 → sleepHistoryDays q = 1) ∧
      (q = some 0 → sleepHistoryDays q = 30)) ∧
    (1 ≤ recoveryHistoryDays q ∧ recoveryHistoryDays q ≤ 90 ∧
      (q = none → recoveryHistoryDays q = 30) ∧
      (∀ v, q = some v → 90 < v → recoveryHistoryDays q = 90) ∧
      (∀ v, q = some v → v < 1 → v ≠ 0 → recoveryHistoryDays q = 1) ∧
      (q = some 0 → recoveryHistoryDays q = 30)) ∧
    (1 ≤ heartRateHistoryDays q ∧ heartRateHistoryDays q ≤ 90 ∧
      (q = none → heartRateHistoryDays q = 30) ∧
      (∀ v, q = some v → 90 < v → heartRateHistoryDays q = 90) ∧
      (∀ v, q = some v → v < 1 → v ≠ 0 → heartRateHistoryDays q = 1) ∧
      (q = some 0 → heartRateHistoryDays q = 30)) ∧
    (1 ≤ activityHistoryDays q ∧ activityHistoryDays q ≤ 90 ∧
      (q = none → activityHistoryDays q = 14) ∧
      (∀ v, q = some v → 90 < v → activityHistoryDays q = 90) ∧
      (∀ v, q = some v → v < 1 → v ≠ 0 → activityHistoryDays q = 1) ∧
      (q = some 0 → activityHistoryDays q = 14)) ∧
    (1 ≤ stagesHistoryDays q ∧ stagesHistoryDays q ≤ 30 ∧
      (q = none → stagesHistoryDays q = 14) ∧
      (∀ v, q = some v → 30 < v → stagesHistoryDays q = 30) ∧
      (∀ v, q = some v → v < 1 → v ≠ 0 → stagesHistoryDays q = 1) ∧
      (q = some 0 → stagesHistoryDays q = 14)) :=
  ⟨clampDays_spec 30 90 (by norm_num) (by norm_num) q,
   clampDays_spec 30 90 (by norm_num) (by norm_num) q,
   clampDays_spec 30 90 (by norm_num) (by norm_num) q,
   clampDays_spec 14 90 (by norm_num) (by norm_num) q,
   clampDays_spec 14 30 (by norm_num) (by norm_num) q⟩

/-- C4 (witness): a non-numeric days value on GET /sleep/history falls back to
30, and days=200 on GET /activity/history clamps to 90. -/
theorem days_clamp_amended_witness :
    sleepHistoryDays none = 30 ∧ activityHistoryDays (some 200) = 90 :=
  ⟨(days_clamp_amended none).1.2.2.1 rfl,
   ((days_clamp_amended (some 200)).2.2.2.1).2.2.2.1 200 rfl (by norm_num)⟩

/-- C5: every history endpoint (sleep history, resting heart-rate history,
HRV history, activity steps history) returns records sorted strictly
descending by date string, and the stages-history chart endpoint returns
records sorted strictly ascending, whenever the record dates are pairwise
distinct. -/
theorem endpoint_sort_order :
    (∀ raw : List RawSleepEntry,
      (sleepHistoryRecords raw).Pairwise (fun a b => a.date ≠ b.date) →
      (sleepHistoryRecords raw).Pairwise (fun a b => dateLt b.date a.date)) ∧
    (∀ entries : List RhrEntry,
      (restingHistoryRecords entries).Pairwise (fun a b => a.date ≠ b.date) →
      (restingHistoryRecords entries).Pairwise (fun a b => dateLt b.date a.date)) ∧
    (∀ entries : List HrvEntry,
      (hrvHistoryRecords entries).Pairwise (fun a b => a.date ≠ b.date) →
      (hrvHistoryRecords entries).Pairwise (fun a b => dateLt b.date a.date)) ∧
    (∀ entries : List StepsEntry,
      (stepsHistoryRecords entries).Pairwise (fun a b => a.date ≠ b.date) →
      (stepsHistoryRecords entries).Pairwise (fun a b => dateLt b.date a.date)) ∧
    (∀ raw : List RawSleepEntry,
      (stagesHistoryRecords raw).Pairwise (fun a b => a.date ≠ b.date) →
      (stagesHistoryRecords raw).Pairwise (fun a b => dateLt a.date b.date)) :=
  ⟨fun _ h => strict_sortByDateDesc _ _ h,
   fun _ h => strict_sortByDateDesc _ _ h,
   fun _ h => strict_sortByDateDesc _ _ h,
   fun _ h => strict_sortByDateDesc _ _ h,
   fun _ h => strict_sortByDateAsc _ _ h⟩

/-- C5 (witness): on two main-sleep entries with distinct dates, the sleep
history records come out strictly descending and the stages-history records
strictly ascending. -/
theorem endpoint_sort_order_witness :
    (sleepHistoryRecords
        [{ dateOfSleep := some "2025-01-01", isMainSleep := some true },
         { dateOfSleep := some "2025-01-02", isMainSleep := some true }]).Pairwise
      (fun a b => dateLt b.date a.date) ∧
    (stagesHistoryRecords
        [{ dateOfSleep := some "2025-01-02", isMainSleep := some true },
         { dateOfSleep := some "2025-01-01", isMainSleep := some true }]).Pairwise
      (fun a b => dateLt a.date b.date) :=
  ⟨endpoint_sort_order.1 _ (by decide), endpoint_sort_order.2.2.2.2 _ (by decide)⟩

/-- C1: when the first response to a request is a 401, the client invokes the
credential refresh exactly once; if the refresh succeeds the identical request
is retried exactly once (two HTTP calls in total), and a second 401 on the
retried request is not retried again but surfaces as a 401 API error; if the
refresh fails, the 401 "token expired and refresh failed" error is raised with
zero retried requests (one HTTP call in total). -/
theorem retry_on_401 (st : ClientState) (b : String) (rnet : RefreshNet)
    (net2 : NetResult) (hTok : jsTruthyS st.accessToken = true) :
    (request st (.resp 401 b) rnet net2).refreshAttempts = 1 ∧
    ((refreshAccessToken st rnet).success = true →
      (request st (.resp 401 b) rnet net2).httpCalls = 2 ∧
      (∀ b2, net2 = .resp 401 b2 →
        (request st (.resp 401 b) rnet net2).result = .error (.api 401 (b2.take 200)))) ∧
    ((refreshAccessToken st rnet).success = false →
      (request st (.resp 401 b) rnet net2).result =
        .error (.api 401 "Token expired and refresh failed. Re-authenticate.") ∧
      (request st (.resp 401 b) rnet net2).httpCalls = 1) := by
  cases hs : (refreshAccessToken st rnet).success <;>
    cases net2 <;>
      simp [request, hTok, hs, classifyResponse, respOk]
  intro h
  subst h
  simp

/-- C1 (witness): with valid credentials, a first 401, a successful token
exchange, and a second 401 on the retry, the client makes exactly two HTTP
calls, one refresh attempt, and surfaces the second 401 as an API error. -/
theorem retry_on_401_witness :
    (request ⟨some "at", some "rt", some "id", some "secret"⟩ (.resp 401 "expired")
        (.resp 200 ⟨"newat", "newrt"⟩) (.resp 401 "denied")).httpCalls = 2 ∧
    (request ⟨some "at", some "rt", some "id", some "secret"⟩ (.resp 401 "expired")
        (.resp 200 ⟨"newat", "newrt"⟩) (.resp 401 "denied")).result =
      .error (.api 401 ("denied".take 200)) := by
  have h := retry_on_401 ⟨some "at", some "rt", some "id", some "secret"⟩ "expired"
    (.resp 200 ⟨"newat", "newrt"⟩) (.resp 401 "denied") (by decide)
  have hs : (refreshAccessToken ⟨some "at", some "rt", some "id", some "secret"⟩
      (.resp 200 ⟨"newat", "newrt"⟩)).success = true := by decide
  obtain ⟨-, h2, -⟩ := h
  obtain ⟨hc, hr⟩ := h2 hs
  exact ⟨hc, hr "denied" rfl⟩

/-- C7: refresh returns failure with zero token-endpoint calls and an
unchanged state when the refresh token, client id or client secret is
missing; a non-2xx exchange response (and a transport failure) returns
failure without mutating the stored credential; and the stored credential
is replaced only by a 2xx exchange response. -/
theorem refresh_failure_semantics (st : ClientState) (rnet : RefreshNet) :
    (¬ (jsTruthyS st.refreshToken = true ∧ jsTruthyS st.clientId = true ∧
        jsTruthyS st.clientSecret = true) →
      refreshAccessToken st rnet = ⟨false, st, 0⟩) ∧
    (∀ status tok, rnet = .resp status tok → respOk status = false →
      (refreshAccessToken st rnet).success = false ∧
      (refreshAccessToken st rnet).state = st) ∧
    (rnet = .err →
      (refreshAccessToken st rnet).success = false ∧
      (refreshAccessToken st rnet).state = st) ∧
    ((refreshAccessToken st rnet).state ≠ st →
      ∃ status tok, rnet = .resp status tok ∧ respOk status = true ∧
        (refreshAccessToken st rnet).success = true ∧
        (refreshAccessToken st rnet).state =
          { st with
              accessToken := some tok.access_token
              refreshToken := some tok.refresh_token }) := by
  by_cases hc : jsTruthyS st.refreshToken = true ∧ jsTruthyS st.clientId = true ∧
      jsTruthyS st.clientSecret = true
  · refine ⟨fun h => absurd hc h, ?_, ?_, ?_⟩
    · intro status tok hr hok
      subst hr
      simp [refreshAccessToken, hc, hok]
    · intro hr
      subst hr
      simp [refreshAccessToken, hc]
    · intro hne
      cases rnet with
      | err => exact absurd (by simp [refreshAccessToken, hc]) hne
      | resp status tok =>
        by_cases hok : respOk status
        · exact ⟨status, tok, rfl, hok, by simp [refreshAccessToken, hc, hok]⟩
        · exact absurd (by simp [refreshAccessToken, hc, hok]) hne
  · have hfail : refreshAccessToken st rnet = ⟨false, st, 0⟩ := by
      simp only [refreshAccessToken]
      rw [if_neg]
      exact fun h => hc ⟨h.1, h.2.1, h.2.2⟩
    refine ⟨fun _ => hfail, ?_, ?_, ?_⟩
    · intro status tok _ _
      rw [hfail]
      exact ⟨rfl, rfl⟩
    · intro _
      rw [hfail]
      exact ⟨rfl, rfl⟩
    · intro hne
      rw [hfail] at hne
      exact absurd rfl hne

/-- C7 (witness): with the client secret missing, refresh fails with zero
token-endpoint calls and an unchanged state. -/
theorem refresh_failure_semantics_witness :
    refreshAccessToken ⟨some "at", some "rt", some "id", none⟩ .err =
      ⟨false, ⟨some "at", some "rt", some "id", none⟩, 0⟩ :=
  (refresh_failure_semantics ⟨some "at", some "rt", some "id", none⟩ .err).1
    (by decide)

/-- C6: no baseline window contains the current sample: every entry admitted
into the morning report's sleep comparison window has a raw dateOfSleep
different from the current record's date, and the HRV baseline window spans
the day numbers from 7 days ago through yesterday, none of which is today. -/
theorem baseline_excludes_current (cur : SleepRecord) (hist : List RawSleepEntry)
    (todayDay d : ℤ) :
    (∀ s ∈ sleepComparisonWindow cur hist, s.dateOfSleep ≠ some cur.date) ∧
    (hrvWindowStart todayDay ≤ d → d ≤ hrvWindowEnd todayDay → d ≠ todayDay) := by
  constructor
  · intro s hs
    have hmem := List.of_mem_filter hs
    have hp := of_decide_eq_true hmem
    exact hp.2
  · intro h1 h2
    simp only [hrvWindowStart, hrvWindowEnd, daysAgoDay] at h1 h2
    omega

/-- C6 (witness): the history entry of 2025-01-09 is admitted into the window
of the record of 2025-01-10 and indeed carries a different date, and day 95
of a window whose today is day 100 is not today. -/
theorem baseline_excludes_current_witness :
    sampleHistEntry.dateOfSleep ≠ some sampleCur.date ∧ (95 : ℤ) ≠ 100 := by
  have h := baseline_excludes_current sampleCur [sampleHistEntry] 100 95
  exact ⟨h.1 sampleHistEntry (by decide), h.2 (by decide) (by decide)⟩

/-- C8: a thrown error in any single metric-family fetch of the morning
report yields exactly that family's null sub-section, while every other
sub-section of the assembled report is unchanged. -/
theorem family_failure_isolated (today yesterday : String) (inp : MorningInputs) :
    (morningReport today yesterday { inp with sleepTodayFetch := .error () } =
      { morningReport today yesterday inp with
          last_night_sleep := none
          sleep_comparison := none }) ∧
    (morningReport today yesterday { inp with activityFetch := .error () } =
      { morningReport today yesterday inp with yesterday_activity := none }) ∧
    (morningReport today yesterday { inp with hrvTodayFetch := .error () } =
      { morningReport today yesterday inp with recovery_hrv := none }) ∧
    (morningReport today yesterday { inp with heartRateFetch := .error () } =
      { morningReport today yesterday inp with resting_heart_rate := none }) := by
  refine ⟨?_, ?_, ?_, ?_⟩ <;>
    simp [morningReport, lastNightSleepOf, sleepComparisonOf, yesterdayActivityOf,
      hrvReportOf, restingHeartRateOf]

/-- A raw numeric 0 normalizes to null under the || null coercion. -/
theorem jsOrQ_some_zero : jsOrQ (some 0) = none := by decide

/-- An absent raw value normalizes to null under the || null coercion. -/
theorem jsOrQ_none : jsOrQ none = none := rfl

/-- C10: at the public interface a raw numeric 0 is indistinguishable from an
absent value: parseSleepRecord yields the same record whether efficiency,
minutesAsleep, minutesAwake or timeInBed is 0 or absent, and the resting
heart-rate and recovery history outputs (records, average, min, max) are
identical whether the leading sample's value is 0 or absent — the 0 sample is
excluded from the window statistics. -/
theorem zero_indistinguishable_from_absent (e : RawSleepEntry) (d : String)
    (dr : Option ℚ) (rest : List RhrEntry) (hrvRest : List HrvEntry) :
    parseSleepRecord { e with efficiency := some 0 } =
      parseSleepRecord { e with efficiency := none } ∧
    parseSleepRecord { e with minutesAsleep := some 0 } =
      parseSleepRecord { e with minutesAsleep := none } ∧
    parseSleepRecord { e with minutesAwake := some 0 } =
      parseSleepRecord { e with minutesAwake := none } ∧
    parseSleepRecord { e with timeInBed := some 0 } =
      parseSleepRecord { e with timeInBed := none } ∧
    restingHistoryOutput (⟨d, some 0⟩ :: rest) = restingHistoryOutput (⟨d, none⟩ :: rest) ∧
    recoveryHistoryOutput (⟨d, some 0, dr⟩ :: hrvRest) =
      recoveryHistoryOutput (⟨d, none, dr⟩ :: hrvRest) := by
  refine ⟨?_, ?_, ?_, ?_, ?_, ?_⟩ <;>
    simp [parseSleepRecord, jsOrQ_some_zero, jsOrQ_none, jsOrZero,
      restingHistoryOutput, recoveryHistoryOutput, restingHistoryRecords,
      hrvHistoryRecords, truthyVals]

/-- C2: for every baseline comparison over a window of non-negative raw
samples, the percent difference is null when the truthy window is empty, when
the current value is missing or 0, or when the window average is 0; otherwise
it equals round((current - avg) / avg * 1000) / 10. -/
theorem baseline_percent_spec (current : Option ℚ) (window : List (Option ℚ))
    (hnn : ∀ o ∈ window, 0 ≤ o.getD 0) :
    (truthyVals window = [] → vsBaselinePercent current window = none) ∧
    ((current = none ∨ current = some 0) → vsBaselinePercent current window = none) ∧
    (winAvg (truthyVals window) = 0 → vsBaselinePercent current window = none) ∧
    (∀ c : ℚ, current = some c → c ≠ 0 → truthyVals window ≠ [] →
      vsBaselinePercent current window =
        some ((jsRound ((c - winAvg (truthyVals window)) /
          winAvg (truthyVals window) * 1000) : ℚ) / 10)) := by
  refine ⟨?_, ?_, ?_, ?_⟩
  · intro he
    simp [vsBaselinePercent, he]
  · intro hc
    have h0 : jsTruthyQ (some 0) = false := by decide
    rcases hc with rfl | rfl <;> simp [vsBaselinePercent, jsTruthyQ, h0]
  · intro h0
    by_cases he : truthyVals window = []
    · simp [vsBaselinePercent, he]
    · exact absurd h0 (ne_of_gt (winAvg_truthyVals_pos window hnn he))
  · intro c hcur hc0 hne
    subst hcur
    have hl : (truthyVals window).length ≠ 0 := fun h => hne (List.length_eq_zero.mp h)
    simp [vsBaselinePercent, jsTruthyQ, hl, hc0]

/-- C2 (witness): the specified scenario — current 55 against the window
[50, 52, 54, 58, 60] with average 54.8 — yields a percent difference of 0.4. -/
theorem baseline_percent_spec_witness :
    vsBaselinePercent (some 55) [some 50, some 52, some 54, some 58, some 60] =
      some (2/5) := by
  have h := (baseline_percent_spec (some 55)
      [some 50, some 52, some 54, some 58, some 60] (by decide)).2.2.2
    55 rfl (by norm_num) (by decide)
  have hV : truthyVals [some 50, some 52, some 54, some 58, some 60] =
      ([50, 52, 54, 58, 60] : List ℚ) := by decide
  have hW : winAvg ([50, 52, 54, 58, 60] : List ℚ) = 274/5 := by
    simp [winAvg, List.sum_cons, List.sum_nil]
    norm_num
  rw [h, hV, hW]
  have harg : ((55 : ℚ) - 274/5) / (274/5) * 1000 = 500/137 := by norm_num
  rw [harg]
  have h4 : jsRound (500/137 : ℚ) = 4 := jsRound_eq_of _ _ (by norm_num) (by norm_num)
  rw [h4]
  norm_num

/-- C3: for every sleep entry carrying a levels summary, each stage percentage
is round(stageMinutes / (deep+light+rem) * 1000) / 10, and null when the stage
total is zero or the stage's own minutes value is zero or absent; on the
specified scenario entry the normalized record has duration_hours 7.5 and
stage percentages 20.0 / 60.0 / 20.0. -/
theorem sleep_stage_percent_spec :
    (∀ (m : Option ℚ) (total : ℚ),
      (∀ x, m = some x → x ≠ 0 → total ≠ 0 →
        stagePercent m total = some ((jsRound (x / total * 1000) : ℚ) / 10)) ∧
      (total = 0 → stagePercent m total = none) ∧
      ((m = none ∨ m = some 0) → stagePercent m total = none)) ∧
    (∀ (e : RawSleepEntry) (s : RawStages), e.summary = some s →
      (parseSleepRecord e).stages = some
        { deep := s.deep
          deep_percent :=
            stagePercent s.deep (jsOrZero s.deep + jsOrZero s.light + jsOrZero s.rem)
          light := s.light
          light_percent :=
            stagePercent s.light (jsOrZero s.deep + jsOrZero s.light + jsOrZero s.rem)
          rem := s.rem
          rem_percent :=
            stagePercent s.rem (jsOrZero s.deep + jsOrZero s.light + jsOrZero s.rem)
          wake := s.wake }) ∧
    (parseSleepRecord sampleSleepEntry).duration_hours = some (15/2) ∧
    (parseSleepRecord sampleSleepEntry).stages =
      some { deep := some 90
             deep_percent := some 20
             light := some 270
             light_percent := some 60
             rem := some 90
             rem_percent := some 20
             wake := some 30 } := by
  refine ⟨?_, ?_, ?_, ?_⟩
  · intro m total
    refine ⟨?_, ?_, ?_⟩
    · intro x hm hx ht
      subst hm
      simp [stagePercent, hx, ht]
    · intro ht
      cases m with
      | none => rfl
      | some x => simp [stagePercent, ht]
    · intro hm
      rcases hm with rfl | rfl
      · rfl
      · simp [stagePercent]
  · intro e s hs
    simp [parseSleepRecord, hs]
  · have h750 : jsRound (750 : ℚ) = 750 := jsRound_eq_of _ _ (by norm_num) (by norm_num)
    norm_num [parseSleepRecord, sampleSleepEntry, jsOrZero, h750]
  · have h200 : jsRound (200 : ℚ) = 200 := jsRound_eq_of _ _ (by norm_num) (by norm_num)
    have h600 : jsRound (600 : ℚ) = 600 := jsRound_eq_of _ _ (by norm_num) (by norm_num)
    norm_num [parseSleepRecord, sampleSleepEntry, stagePercent, jsOrZero, h200, h600]

/-- C3 (witness): instantiating the summary clause on the scenario entry and
evaluating gives the concrete stage record. -/
theorem sleep_stage_percent_spec_witness :
    (parseSleepRecord sampleSleepEntry).stages =
      some { deep := some 90
             deep_percent := stagePercent (some 90) 450
             light := some 270
             light_percent := stagePercent (some 270) 450
             rem := some 90
             rem_percent := stagePercent (some 90) 450
             wake := some 30 } := by
  have h := sleep_stage_percent_spec.2.1 sampleSleepEntry
    { deep := some 90, light := some 270, rem := some 90, wake := some 30 } rfl
  rw [h]
  have h200 : jsRound (200 : ℚ) = 200 := jsRound_eq_of _ _ (by norm_num) (by norm_num)
  have h600 : jsRound (600 : ℚ) = 600 := jsRound_eq_of _ _ (by norm_num) (by norm_num)
  norm_num [stagePercent, jsOrZero, h200, h600]

/-- A stage's contribution to the percentage sum, null counted as 0, always
equals the rounded formula when the total is non-zero. -/
theorem stagePercent_getD (x t : ℚ) (ht : t ≠ 0) :
    (stagePercent (some x) t).getD 0 = (jsRound (x / t * 1000) : ℚ) / 10 := by
  by_cases hx : x = 0
  · subst hx
    have h0 : jsRound 0 = 0 := jsRound_eq_of _ _ (by norm_num) (by norm_num)
    simp [stagePercent, h0]
  · simp [stagePercent, hx, ht]

/-- C9: for every stage-minute triple with positive total, the three computed
stage percentages (null counted as 0) sum to 100 within 0.3. -/
theorem stage_percent_sum (d l r : ℕ) (w : Option ℚ) (h : 0 < d + l + r) :
    ∃ st : SleepStages,
      (parseSleepRecord
          { summary := some ⟨some (d : ℚ), some (l : ℚ), some (r : ℚ), w⟩ }).stages =
        some st ∧
      |st.deep_percent.getD 0 + st.light_percent.getD 0 + st.rem_percent.getD 0 - 100|
        ≤ 3/10 := by
  have hT : ((d : ℚ) + (l : ℚ) + (r : ℚ)) ≠ 0 := by
    have hpos : (0 : ℚ) < (d : ℚ) + (l : ℚ) + (r : ℚ) := by
      exact_mod_cast h
    exact ne_of_gt hpos
  refine ⟨_, rfl, ?_⟩
  dsimp only
  simp only [jsOrZero, Option.getD_some]
  rw [stagePercent_getD _ _ hT, stagePercent_getD _ _ hT, stagePercent_getD _ _ hT]
  have hsum : (d : ℚ) / ((d : ℚ) + (l : ℚ) + (r : ℚ)) * 1000 +
      (l : ℚ) / ((d : ℚ) + (l : ℚ) + (r : ℚ)) * 1000 +
      (r : ℚ) / ((d : ℚ) + (l : ℚ) + (r : ℚ)) * 1000 = 1000 := by
    field_simp
    ring
  have hA := jsRound_sub_le ((d : ℚ) / ((d : ℚ) + (l : ℚ) + (r : ℚ)) * 1000)
  have hB := jsRound_sub_le ((l : ℚ) / ((d : ℚ) + (l : ℚ) + (r : ℚ)) * 1000)
  have hC := jsRound_sub_le ((r : ℚ) / ((d : ℚ) + (l : ℚ) + (r : ℚ)) * 1000)
  rw [abs_le] at hA hB hC ⊢
  constructor <;> linarith

/-- C9 (witness): the triple (90, 270, 90) has positive total and its stage
percentages sum to 100 within tolerance. -/
theorem stage_percent_sum_witness :
    0 < 90 + 270 + 90 ∧
    ∃ st : SleepStages,
      (parseSleepRecord
          { summary :=
              some ⟨some ((90 : ℕ) : ℚ), some ((270 : ℕ) : ℚ), some ((90 : ℕ) : ℚ), some 30⟩ }).stages =
        some st ∧
      |st.deep_percent.getD 0 + st.light_percent.getD 0 + st.rem_percent.getD 0 - 100|
        ≤ 3/10 :=
  ⟨by norm_num, stage_percent_sum 90 270 90 (some 30) (by norm_num)⟩

end Fitbitbot
